import Mathlib

/-!
Verification of the response reconciliation engine of the invoice
extraction service (src/main.py).  The Python code is shallowly embedded:
JSON values become the inductive type Json, Python dicts become ordered
association lists, the pydantic models become Lean structures with
explicit validators following pydantic v2 semantics (fields annotated
Optional without a default are required but nullable; extra input keys
are ignored; numeric strings coerce to floats, modelled as rationals),
and the fallible parsing pipeline returns Except values whose error
constructors mirror the three except clauses of parse_gpt_response.
-/

set_option maxRecDepth 4000

/-- A decoded JSON value, as produced by json.loads: maps are ordered
association lists (Python dicts preserve insertion order), numbers are
modelled as rationals (covering both Python int and float for every
operation the engine performs on them). -/
inductive Json where
  | null : Json
  | bool : Bool → Json
  | num : ℚ → Json
  | str : String → Json
  | arr : List Json → Json
  | obj : List (String × Json) → Json

namespace Json

/-- Python d.get(k): first binding of the key, if any. -/
def dget : List (String × Json) → String → Option Json
  | [], _ => none
  | (k, v) :: rest, key => if k = key then some v else dget rest key

/-- Python d[k] = v: replace the value at the first occurrence of the key,
keeping its position; append at the end when the key is absent. -/
def dset : List (String × Json) → String → Json → List (String × Json)
  | [], key, v => [(key, v)]
  | (k, w) :: rest, key, v =>
    if k = key then (k, v) :: rest else (k, w) :: dset rest key v

/-- Remove the first binding of a key (the effect of dict.pop on the
stored dict). -/
def dremove : List (String × Json) → String → List (String × Json)
  | [], _ => []
  | (k, w) :: rest, key =>
    if k = key then rest else (k, w) :: dremove rest key

/-- Python d.pop(k, dflt): the popped value (or the default) together
with the dict after removal. -/
def dpop (kvs : List (String × Json)) (key : String) (dflt : Json) :
    Json × List (String × Json) :=
  match dget kvs key with
  | some v => (v, dremove kvs key)
  | none => (dflt, kvs)

end Json

open Json

/-- normalize_nulls from src/main.py: dicts and lists are rebuilt with
every contained value normalized recursively; a value equal to the string
"null" or the string "NA" becomes None; anything else is unchanged. -/
def normalize_nulls : Json → Json
  | .null => .null
  | .bool b => .bool b
  | .num q => .num q
  | .str s => if s = "null" ∨ s = "NA" then .null else .str s
  | .arr xs => .arr (xs.attach.map fun x => normalize_nulls x.1)
  | .obj kvs => .obj (kvs.attach.map fun kv => (kv.1.1, normalize_nulls kv.1.2))
termination_by j => sizeOf j
decreasing_by
  · have := List.sizeOf_lt_of_mem x.2
    simp only [Json.arr.sizeOf_spec]
    omega
  · have h1 := List.sizeOf_lt_of_mem kv.2
    have h2 : sizeOf kv.1.2 < sizeOf kv.1 := by
      obtain ⟨a, b⟩ := kv.1
      simp only [Prod.mk.sizeOf_spec]
      omega
    simp only [Json.obj.sizeOf_spec]
    omega

theorem normalize_nulls_arr (xs : List Json) :
    normalize_nulls (.arr xs) = .arr (xs.map normalize_nulls) := by
  rw [normalize_nulls]
  simp [List.attach_map_coe]

theorem normalize_nulls_obj (kvs : List (String × Json)) :
    normalize_nulls (.obj kvs) =
      .obj (kvs.map fun kv => (kv.1, normalize_nulls kv.2)) := by
  rw [normalize_nulls]
  exact congrArg Json.obj
    (List.attach_map_coe kvs (fun kv => (kv.1, normalize_nulls kv.2)))

/-- Strong induction over the Json tree (nested through lists). -/
theorem Json.treeInd {P : Json → Prop}
    (hnull : P .null) (hbool : ∀ b, P (.bool b)) (hnum : ∀ q, P (.num q))
    (hstr : ∀ s, P (.str s))
    (harr : ∀ xs, (∀ x ∈ xs, P x) → P (.arr xs))
    (hobj : ∀ kvs, (∀ kv ∈ kvs, P kv.2) → P (.obj kvs)) :
    ∀ j, P j
  | .null => hnull
  | .bool b => hbool b
  | .num q => hnum q
  | .str s => hstr s
  | .arr xs => harr xs (fun x hx => Json.treeInd hnull hbool hnum hstr harr hobj x)
  | .obj kvs => hobj kvs (fun kv hkv =>
      Json.treeInd hnull hbool hnum hstr harr hobj kv.2)
termination_by j => sizeOf j
decreasing_by
  · have := List.sizeOf_lt_of_mem hx
    simp only [Json.arr.sizeOf_spec]
    omega
  · have h1 := List.sizeOf_lt_of_mem hkv
    have h2 : sizeOf kv.2 < sizeOf kv := by
      obtain ⟨a, b⟩ := kv
      simp only [Prod.mk.sizeOf_spec]
      omega
    simp only [Json.obj.sizeOf_spec]
    omega

/-- Modelled from the spec: the value-based rewrite rule of the
Null-Synonym Normalizer — a scalar equal to the string "null" or the
string "NA" becomes the absent-value marker, every other scalar is kept. -/
def scalarRule (v : Json) : Json :=
  match v with
  | .str s => if s = "null" ∨ s = "NA" then .null else .str s
  | w => w

/-- Modelled from the spec: apply a scalar rewrite rule uniformly at every
depth of a generic value tree — maps and sequences are walked recursively,
scalars (null, booleans, numbers, strings) get the rule applied. -/
def mapScalars (f : Json → Json) : Json → Json
  | .null => f .null
  | .bool b => f (.bool b)
  | .num q => f (.num q)
  | .str s => f (.str s)
  | .arr xs => .arr (xs.attach.map fun x => mapScalars f x.1)
  | .obj kvs => .obj (kvs.attach.map fun kv => (kv.1.1, mapScalars f kv.1.2))
termination_by j => sizeOf j
decreasing_by
  · have := List.sizeOf_lt_of_mem x.2
    simp only [Json.arr.sizeOf_spec]
    omega
  · have h1 := List.sizeOf_lt_of_mem kv.2
    have h2 : sizeOf kv.1.2 < sizeOf kv.1 := by
      obtain ⟨a, b⟩ := kv.1
      simp only [Prod.mk.sizeOf_spec]
      omega
    simp only [Json.obj.sizeOf_spec]
    omega

theorem mapScalars_arr (f : Json → Json) (xs : List Json) :
    mapScalars f (.arr xs) = .arr (xs.map (mapScalars f)) := by
  rw [mapScalars]
  simp [List.attach_map_coe]

theorem mapScalars_obj (f : Json → Json) (kvs : List (String × Json)) :
    mapScalars f (.obj kvs) =
      .obj (kvs.map fun kv => (kv.1, mapScalars f kv.2)) := by
  rw [mapScalars]
  exact congrArg Json.obj
    (List.attach_map_coe kvs (fun kv => (kv.1, mapScalars f kv.2)))

/-- C3: Null-synonym normalization is total over the tree: normalize_nulls
replaces every scalar equal to the string "null" or the string "NA" — at
any depth, as a top-level value, a nested map value, or a sequence
element — with the absent-value marker and leaves every other value
unchanged; formally it coincides with applying the value-based
scalar rule of the spec at every position of the tree, and the rule fires exactly on
those two strings. -/
theorem c3_normalize_nulls_total :
    (∀ j, normalize_nulls j = mapScalars scalarRule j) ∧
    (∀ s, scalarRule (.str s) =
      if s = "null" ∨ s = "NA" then .null else .str s) ∧
    (scalarRule .null = .null) ∧ (∀ b, scalarRule (.bool b) = .bool b) ∧
    (∀ q, scalarRule (.num q) = .num q) := by
  refine ⟨?_, fun s => rfl, rfl, fun b => rfl, fun q => rfl⟩
  intro j
  induction j using Json.treeInd with
  | hnull => simp [normalize_nulls, mapScalars, scalarRule]
  | hbool b => simp [normalize_nulls, mapScalars, scalarRule]
  | hnum q => simp [normalize_nulls, mapScalars, scalarRule]
  | hstr s => rw [normalize_nulls, mapScalars, scalarRule]
  | harr xs ih =>
    rw [normalize_nulls_arr, mapScalars_arr]
    congr 1
    exact List.map_congr_left ih
  | hobj kvs ih =>
    rw [normalize_nulls_obj, mapScalars_obj]
    congr 1
    refine List.map_congr_left ?_
    intro kv hkv
    rw [ih kv hkv]

/-- True when the optional character is a decimal digit (the regex
lookarounds fail at the ends of the text). -/
def isDigitOpt : Option Char → Bool
  | some c => c.isDigit
  | none => false

/-- One step of the comma-stripping scan of preprocess_json from
src/main.py, the re.sub with pattern lookbehind-digit comma
lookahead-digit.  prev is the character of the ORIGINAL text immediately
before the current position: the zero-width lookarounds of re.sub examine
the subject string, not the partially built output. -/
def cleanAux (prev : Option Char) : List Char → List Char
  | [] => []
  | c :: rest =>
    if (c = ',') ∧ isDigitOpt prev ∧ isDigitOpt rest.head? then
      cleanAux (some c) rest
    else
      c :: cleanAux (some c) rest

/-- preprocess_json from src/main.py: remove every comma standing between
two digits. -/
def preprocess_json (s : String) : String := String.mk (cleanAux none s.data)

/-- Annotate every character of the text with its immediate original
neighbors (none at the two ends). -/
def wnAux (prev : Option Char) : List Char → List (Option Char × Char × Option Char)
  | [] => []
  | c :: rest => (prev, c, rest.head?) :: wnAux (some c) rest

/-- withNeighbors cs pairs each character with its original left and
right neighbor. -/
def withNeighbors (cs : List Char) : List (Option Char × Char × Option Char) :=
  wnAux none cs

/-- Modelled from the spec: the Numeric Literal Cleaner deletes a comma
if and only if it is immediately preceded and immediately followed by a
digit; every other character is kept. -/
def commaRule : Option Char × Char × Option Char → Option Char
  | (p, c, n) => if (c = ',') ∧ isDigitOpt p ∧ isDigitOpt n then none else some c

theorem cleanAux_eq_filterMap :
    ∀ (cs : List Char) (prev : Option Char),
      cleanAux prev cs = (wnAux prev cs).filterMap commaRule
  | [], prev => rfl
  | c :: rest, prev => by
    simp only [cleanAux, wnAux, List.filterMap_cons, commaRule]
    by_cases h : (c = ',') ∧ isDigitOpt prev ∧ isDigitOpt rest.head?
    · simp only [if_pos h]
      exact cleanAux_eq_filterMap rest (some c)
    · simp only [if_neg h]
      rw [cleanAux_eq_filterMap rest (some c)]

theorem wnAux_get? :
    ∀ (cs : List Char) (prev : Option Char) (i : Nat),
      (wnAux prev cs).get? i = (cs.get? i).map
        (fun c => ((if i = 0 then prev else cs.get? (i - 1)), c, cs.get? (i + 1)))
  | [], prev, i => by simp [wnAux]
  | c :: rest, prev, 0 => by
    cases rest <;> simp [wnAux]
  | c :: rest, prev, (i + 1) => by
    simp only [wnAux, List.get?_cons_succ]
    rw [wnAux_get? rest (some c) i]
    cases i with
    | zero => simp
    | succ i2 =>
      simp only [List.get?_cons_succ, Nat.add_sub_cancel]
      rfl

/-- JSON whitespace accepted by the Python decoder. -/
def isJsonWs (c : Char) : Bool := c = ' ' ∨ c = '\t' ∨ c = '\n' ∨ c = '\r'

/-- Drop leading JSON whitespace. -/
def skipWs : List Char → List Char
  | [] => []
  | c :: rest => if isJsonWs c then skipWs rest else c :: rest

/-- Value of a hexadecimal digit, for string unicode escapes. -/
def hexVal (c : Char) : Option Nat :=
  if c.isDigit then some (c.toNat - 48)
  else if 97 ≤ c.toNat ∧ c.toNat ≤ 102 then some (c.toNat - 87)
  else if 65 ≤ c.toNat ∧ c.toNat ≤ 70 then some (c.toNat - 55)
  else none

/-- Single-character JSON string escapes. -/
def escChar (c : Char) : Option Char :=
  if c = '"' then some '"'
  else if c = '\\' then some '\\'
  else if c = '/' then some '/'
  else if c = 'b' then some (Char.ofNat 8)
  else if c = 'f' then some (Char.ofNat 12)
  else if c = 'n' then some '\n'
  else if c = 'r' then some '\r'
  else if c = 't' then some '\t'
  else none

/-- Body of a JSON string after the opening quote: strict mode, so an
unescaped control character is an error; returns the string and the rest
of the text after the closing quote. -/
def pStrAux : List Char → List Char → Option (String × List Char)
  | acc, [] => none
  | acc, c :: rest =>
    if c = '"' then some (String.mk acc.reverse, rest)
    else if c = '\\' then
      match rest with
      | [] => none
      | e :: r2 =>
        if e = 'u' then
          match r2 with
          | a :: b :: c3 :: d :: r3 =>
            match hexVal a, hexVal b, hexVal c3, hexVal d with
            | some x1, some x2, some x3, some x4 =>
              pStrAux (Char.ofNat (((x1 * 16 + x2) * 16 + x3) * 16 + x4) :: acc) r3
            | _, _, _, _ => none
          | _ => none
        else
          match escChar e with
          | some ec => pStrAux (ec :: acc) r2
          | none => none
    else if c.toNat < 32 then none
    else pStrAux (c :: acc) rest

/-- Greedy scan of decimal digits accumulating their value and count. -/
def digitsAux : Nat → Nat → List Char → Nat × Nat × List Char
  | v, n, [] => (v, n, [])
  | v, n, c :: rest =>
    if c.isDigit then digitsAux (v * 10 + (c.toNat - 48)) (n + 1) rest
    else (v, n, c :: rest)

/-- Optional fraction part: a dot must be followed by at least one digit. -/
def pFrac : List Char → Option (Nat × Nat × List Char)
  | '.' :: c :: r2 =>
    if c.isDigit then
      let t := digitsAux (c.toNat - 48) 1 r2
      some t
    else none
  | '.' :: [] => none
  | cs => some (0, 0, cs)

/-- Digits of an exponent (at least one required). -/
def pExpDigits (cs : List Char) (neg : Bool) : Option (Int × List Char) :=
  match cs with
  | c :: rest =>
    if c.isDigit then
      let t := digitsAux (c.toNat - 48) 1 rest
      some ((if neg then -(t.1 : Int) else (t.1 : Int)), t.2.2)
    else none
  | [] => none

/-- Optional exponent part of a JSON number. -/
def pExp : List Char → Option (Int × List Char)
  | e :: rest =>
    if e = 'e' ∨ e = 'E' then
      match rest with
      | '+' :: r2 => pExpDigits r2 false
      | '-' :: r2 => pExpDigits r2 true
      | r2 => pExpDigits r2 false
    else some (0, e :: rest)
  | [] => some (0, [])

/-- A JSON number per the strict grammar (leading zeros refused, at most
one sign, fraction and exponent optional), evaluated as a rational. -/
def pNumber (cs : List Char) : Option (ℚ × List Char) :=
  let sp : Bool × List Char :=
    match cs with
    | '-' :: rest => (true, rest)
    | _ => (false, cs)
  match sp.2 with
  | c :: rest =>
    if c = '0' then pNumTail 0 sp.1 rest
    else if c.isDigit then
      let t := digitsAux (c.toNat - 48) 1 rest
      pNumTail t.1 sp.1 t.2.2
    else none
  | [] => none
where
  pNumTail (ip : Nat) (neg : Bool) (cs2 : List Char) : Option (ℚ × List Char) :=
    match pFrac cs2 with
    | none => none
    | some (fv, fn, cs3) =>
      match pExp cs3 with
      | none => none
      | some (ex, cs4) =>
        let base : ℚ := (ip : ℚ) + (fv : ℚ) / ((10 : ℚ) ^ fn)
        let mag : ℚ :=
          if 0 ≤ ex then base * (10 : ℚ) ^ ex.toNat
          else base / (10 : ℚ) ^ ((-ex).toNat)
        some ((if neg then -mag else mag), cs4)

/-- Build a dict from parsed key-value pairs the way the Python decoder
does (successive d[k] = v): on a duplicate key the last value wins but
the key keeps its first position. -/
def dedupe (kvs : List (String × Json)) : List (String × Json) :=
  kvs.foldl (fun acc kv => dset acc kv.1 kv.2) []

mutual

/-- One JSON value (fueled recursion; the fuel bounds nesting). -/
def pValue : Nat → List Char → Option (Json × List Char)
  | 0, _ => none
  | Nat.succ fuel, cs =>
    match skipWs cs with
    | [] => none
    | 'n' :: 'u' :: 'l' :: 'l' :: rest => some (.null, rest)
    | 't' :: 'r' :: 'u' :: 'e' :: rest => some (.bool true, rest)
    | 'f' :: 'a' :: 'l' :: 's' :: 'e' :: rest => some (.bool false, rest)
    | '"' :: rest =>
      (match pStrAux [] rest with
       | some (s, r2) => some (.str s, r2)
       | none => none)
    | '[' :: rest =>
      (match skipWs rest with
       | ']' :: r2 => some (.arr [], r2)
       | r2 =>
         match pArrItems fuel r2 with
         | some (vs, r3) => some (.arr vs, r3)
         | none => none)
    | '{' :: rest =>
      (match skipWs rest with
       | '}' :: r2 => some (.obj [], r2)
       | r2 =>
         match pObjItems fuel r2 with
         | some (kvs, r3) => some (.obj (dedupe kvs), r3)
         | none => none)
    | c :: rest =>
      if c = '-' ∨ c.isDigit then
        match pNumber (c :: rest) with
        | some (q, r2) => some (.num q, r2)
        | none => none
      else none

/-- Comma-separated values up to the closing bracket. -/
def pArrItems : Nat → List Char → Option (List Json × List Char)
  | 0, _ => none
  | Nat.succ fuel, cs =>
    match pValue fuel cs with
    | none => none
    | some (v, r) =>
      match skipWs r with
      | ',' :: r2 =>
        (match pArrItems fuel r2 with
         | some (vs, r3) => some (v :: vs, r3)
         | none => none)
      | ']' :: r2 => some ([v], r2)
      | _ => none

/-- Comma-separated string-keyed members up to the closing brace. -/
def pObjItems : Nat → List Char → Option (List (String × Json) × List Char)
  | 0, _ => none
  | Nat.succ fuel, cs =>
    match skipWs cs with
    | '"' :: rest =>
      (match pStrAux [] rest with
       | some (k, r2) =>
         (match skipWs r2 with
          | ':' :: r3 =>
            (match pValue fuel r3 with
             | some (v, r4) =>
               (match skipWs r4 with
                | ',' :: r5 =>
                  (match pObjItems fuel r5 with
                   | some (kvs, r6) => some ((k, v) :: kvs, r6)
                   | none => none)
                | '}' :: r5 => some ([(k, v)], r5)
                | _ => none)
             | none => none)
          | _ => none)
       | none => none)
    | _ => none

end

/-- json.loads from the pipeline: parse a complete document, allowing
only trailing whitespace after the single top-level value. -/
def jsonParse (s : String) : Option Json :=
  match pValue (2 * s.length + 2) s.data with
  | some (j, rest) => if (skipWs rest).isEmpty then some j else none
  | none => none

/-- Ordered string-keyed map, the embedding of a Python dict of decoded
JSON values. -/
abbrev JDict := List (String × Json)

/-- Python float(s) as used by pydantic to coerce a numeric string:
optional sign, digits with an optional fractional part (at least one
digit overall), optional exponent, nothing else. -/
def strToRat (s : String) : Option ℚ :=
  let sp : Bool × List Char :=
    match s.data with
    | '+' :: rest => (false, rest)
    | '-' :: rest => (true, rest)
    | cs => (false, cs)
  let t := digitsAux 0 0 sp.2
  match t.2.2 with
  | '.' :: r2 =>
    let t2 := digitsAux 0 0 r2
    if t.2.1 + t2.2.1 = 0 then none
    else
      match pExp t2.2.2 with
      | none => none
      | some (ex, rest2) =>
        if rest2.isEmpty then some (ratOfParts sp.1 t.1 t2.1 t2.2.1 ex) else none
  | cs2 =>
    if t.2.1 = 0 then none
    else
      match pExp cs2 with
      | none => none
      | some (ex, rest2) =>
        if rest2.isEmpty then some (ratOfParts sp.1 t.1 0 0 ex) else none
where
  ratOfParts (neg : Bool) (ip fv fn : Nat) (ex : Int) : ℚ :=
    let base : ℚ := (ip : ℚ) + (fv : ℚ) / ((10 : ℚ) ^ fn)
    let mag : ℚ :=
      if 0 ≤ ex then base * (10 : ℚ) ^ ex.toNat
      else base / (10 : ℚ) ^ ((-ex).toNat)
    if neg then -mag else mag

/-- pydantic v2 validation of an Optional str value: None passes, a
string passes, nothing else coerces. -/
def vOptStr : Json → Except Unit (Option String)
  | .null => .ok none
  | .str s => .ok (some s)
  | _ => .error ()

/-- pydantic v2 lax validation of an Optional float value: None passes,
numbers pass, a numeric string coerces, anything else is an error. -/
def vOptFloat : Json → Except Unit (Option ℚ)
  | .null => .ok none
  | .num q => .ok (some q)
  | .str s =>
    (match strToRat s with
     | some q => .ok (some q)
     | none => .error ())
  | _ => .error ()

/-- pydantic v2 validation of an Optional Dict value. -/
def vOptDict : Json → Except Unit (Option JDict)
  | .null => .ok none
  | .obj kvs => .ok (some kvs)
  | _ => .error ()

/-- pydantic v2 validation of an Optional List value. -/
def vOptList : Json → Except Unit (Option (List Json))
  | .null => .ok none
  | .arr xs => .ok (some xs)
  | _ => .error ()

/-- pydantic v2 validation of an Optional Union of str and Dict. -/
def vOptStrOrDict : Json → Except Unit (Option (Sum String JDict))
  | .null => .ok none
  | .str s => .ok (some (.inl s))
  | .obj kvs => .ok (some (.inr kvs))
  | _ => .error ()

/-- A required (but nullable) pydantic field: a missing key is a
validation error. -/
def reqF {α : Type} (kvs : JDict) (k : String) (v : Json → Except Unit α) :
    Except Unit α :=
  match dget kvs k with
  | none => .error ()
  | some x => v x

/-- A pydantic field with a declared default: a missing key yields the
default. -/
def optF {α : Type} (kvs : JDict) (k : String) (d : α)
    (v : Json → Except Unit α) : Except Unit α :=
  match dget kvs k with
  | none => .ok d
  | some x => v x

structure VendorDetails where
  name : Option String
  address : Option String
  contact : Option String
  tax_id : Option String
  extra_fields : Option JDict

structure CustomerDetails where
  name : Option String
  address : Option String
  contact : Option String
  tax_id : Option String
  extra_fields : Option JDict

structure LineItem where
  transaction_date : Option String
  description : Option String
  transaction_type : Option String
  quantity : Option ℚ
  unit : Option String
  unit_price : Option ℚ
  tax_rate : Option ℚ
  tax_amount : Option ℚ
  subtotal : Option ℚ
  total : Option ℚ
  status : Option String
  sub_items : Option (List Json)
  extra_details : Option (Sum String JDict)
  extra_fields : Option JDict

structure BankDetails where
  account_name : Option String
  account_number : Option String
  bank_name : Option String
  extra_fields : Option JDict

structure PaymentSlip where
  payment_amount : Option ℚ
  payment_due_date : Option String
  reference_number : Option String
  bank_details : Option BankDetails
  extra_fields : Option JDict

structure Totals where
  previous_balance : Option ℚ
  current_charges : Option ℚ
  partial_totals : Option (List Json)
  taxes : Option (List Json)
  discounts : Option ℚ
  adjustments : Option ℚ
  grand_total : Option ℚ
  amount_in_words : Option String
  currency : Option String
  extra_fields : Option JDict

structure InvoiceMetadata where
  invoice_number : Option String
  invoice_date : Option String
  due_date : Option String
  currency : Option String
  vendor_details : VendorDetails
  customer_details : CustomerDetails
  additional_metadata : Option JDict
  extra_fields : Option JDict

structure InvoiceData where
  document_type : Option String
  invoice_metadata : InvoiceMetadata
  line_items : List LineItem
  totals : Totals
  payment_slip : Option PaymentSlip
  unstructured_content : Option (Sum String JDict)
  extra_fields : Option JDict

/-- VendorDetails(**kvs) under pydantic v2: the four scalar fields are
required but nullable, extra_fields defaults to an empty dict, any other
input key is ignored. -/
def validateVendorDetails (kvs : JDict) : Except Unit VendorDetails := do
  let n ← reqF kvs "name" vOptStr
  let a ← reqF kvs "address" vOptStr
  let c ← reqF kvs "contact" vOptStr
  let t ← reqF kvs "tax_id" vOptStr
  let ef ← optF kvs "extra_fields" (some []) vOptDict
  .ok ⟨n, a, c, t, ef⟩

/-- CustomerDetails(**kvs) under pydantic v2. -/
def validateCustomerDetails (kvs : JDict) : Except Unit CustomerDetails := do
  let n ← reqF kvs "name" vOptStr
  let a ← reqF kvs "address" vOptStr
  let c ← reqF kvs "contact" vOptStr
  let t ← reqF kvs "tax_id" vOptStr
  let ef ← optF kvs "extra_fields" (some []) vOptDict
  .ok ⟨n, a, c, t, ef⟩

/-- LineItem(**kvs, extra_fields=ef) under pydantic v2; ef is the value
popped from the raw item by parse_gpt_response. -/
def validateLineItem (kvs : JDict) (ef : Json) : Except Unit LineItem := do
  let td ← reqF kvs "transaction_date" vOptStr
  let de ← reqF kvs "description" vOptStr
  let tt ← reqF kvs "transaction_type" vOptStr
  let q ← reqF kvs "quantity" vOptFloat
  let u ← reqF kvs "unit" vOptStr
  let up ← reqF kvs "unit_price" vOptFloat
  let tr ← reqF kvs "tax_rate" vOptFloat
  let ta ← reqF kvs "tax_amount" vOptFloat
  let sub ← reqF kvs "subtotal" vOptFloat
  let tot ← reqF kvs "total" vOptFloat
  let st ← reqF kvs "status" vOptStr
  let si ← optF kvs "sub_items" (some []) vOptList
  let ed ← optF kvs "extra_details" (some (.inl "")) vOptStrOrDict
  let efv ← vOptDict ef
  .ok ⟨td, de, tt, q, u, up, tr, ta, sub, tot, st, si, ed, efv⟩

/-- BankDetails(**kvs, extra_fields=ef) under pydantic v2. -/
def validateBankDetails (kvs : JDict) (ef : Json) : Except Unit BankDetails := do
  let an ← reqF kvs "account_name" vOptStr
  let ac ← reqF kvs "account_number" vOptStr
  let bn ← reqF kvs "bank_name" vOptStr
  let efv ← vOptDict ef
  .ok ⟨an, ac, bn, efv⟩

/-- PaymentSlip(**kvs, bank_details=bd, extra_fields=ef) under pydantic
v2; bd is the already-validated BankDetails instance the code always
passes. -/
def validatePaymentSlip (kvs : JDict) (bd : BankDetails) (ef : Json) :
    Except Unit PaymentSlip := do
  let pa ← reqF kvs "payment_amount" vOptFloat
  let pd ← reqF kvs "payment_due_date" vOptStr
  let rn ← reqF kvs "reference_number" vOptStr
  let efv ← vOptDict ef
  .ok ⟨pa, pd, rn, some bd, efv⟩

/-- Totals(**kvs, extra_fields=ef) under pydantic v2. -/
def validateTotals (kvs : JDict) (ef : Json) : Except Unit Totals := do
  let pb ← reqF kvs "previous_balance" vOptFloat
  let cc ← reqF kvs "current_charges" vOptFloat
  let pt ← optF kvs "partial_totals" (some []) vOptList
  let tx ← optF kvs "taxes" (some []) vOptList
  let di ← reqF kvs "discounts" vOptFloat
  let ad ← reqF kvs "adjustments" vOptFloat
  let gt ← reqF kvs "grand_total" vOptFloat
  let aw ← reqF kvs "amount_in_words" vOptStr
  let cu ← reqF kvs "currency" vOptStr
  let efv ← vOptDict ef
  .ok ⟨pb, cc, pt, tx, di, ad, gt, aw, cu, efv⟩

/-- InvoiceMetadata(**kvs, extra_fields=ef) under pydantic v2: the nested
vendor and customer records are required and must be maps, which are
validated recursively. -/
def validateInvoiceMetadata (kvs : JDict) (ef : Json) :
    Except Unit InvoiceMetadata := do
  let inv ← reqF kvs "invoice_number" vOptStr
  let idt ← reqF kvs "invoice_date" vOptStr
  let dd ← reqF kvs "due_date" vOptStr
  let cu ← reqF kvs "currency" vOptStr
  let vd ← reqF kvs "vendor_details" fun v =>
    match v with
    | .obj m => validateVendorDetails m
    | _ => .error ()
  let cd ← reqF kvs "customer_details" fun v =>
    match v with
    | .obj m => validateCustomerDetails m
    | _ => .error ()
  let am ← optF kvs "additional_metadata" (some []) vOptDict
  let efv ← vOptDict ef
  .ok ⟨inv, idt, dd, cu, vd, cd, am, efv⟩

/-- The two error classes a reconciliation pass can raise: a pydantic
ValidationError (caught at line 487 of src/main.py) or a generic Python
exception such as AttributeError from calling pop or get on a non-dict
(caught at line 490). -/
inductive BuildErr where
  | validation : BuildErr
  | attr : BuildErr
deriving DecidableEq

/-- dict.pop(k, default) on a value that must be a dict: an AttributeError
(generic error) when it is anything else. -/
def popOrAttr (j : Json) (k : String) : Except BuildErr (Json × JDict) :=
  match j with
  | .obj kvs => .ok (dpop kvs k (.obj []))
  | _ => .error .attr

/-- Sequential effectful map, the embedding of the Python for-loop that
builds normalized_line_items in input order. -/
def mapExcept {ε α β : Type} (f : α → Except ε β) : List α → Except ε (List β)
  | [] => .ok []
  | x :: xs => do
    let y ← f x
    let ys ← mapExcept f xs
    .ok (y :: ys)

/-- Lines 430 to 431 of src/main.py: a missing or None extra_details is
set to the empty string before the LineItem model is constructed. -/
def fixExtraDetails (kvs : JDict) : JDict :=
  match dget kvs "extra_details" with
  | none => dset kvs "extra_details" (.str "")
  | some .null => dset kvs "extra_details" (.str "")
  | some _ => kvs

/-- One iteration of the line-item loop of parse_gpt_response: pop
extra_fields, default a missing or null extra_details to the empty
string, then construct the LineItem model. -/
def processLineItem (j : Json) : Except BuildErr LineItem :=
  match j with
  | .obj item =>
    (validateLineItem (fixExtraDetails (dpop item "extra_fields" (.obj [])).2)
      (dpop item "extra_fields" (.obj [])).1).mapError fun _ => BuildErr.validation
  | _ => .error .attr

/-- The line-item loop over normalized_invoice_dict.get("line_items", []):
iterating a list processes the elements in order; iterating an empty dict
or empty string runs zero iterations; iterating a non-empty dict or
string hands a str to item.pop (AttributeError); any other non-list value
is not iterable (TypeError). -/
def stageLineItems (kvs : JDict) : Except BuildErr (List LineItem) :=
  match dget kvs "line_items" with
  | none => .ok []
  | some (.arr xs) => mapExcept processLineItem xs
  | some (.obj []) => .ok []
  | some (.str "") => .ok []
  | some _ => .error .attr

/-- Lines 450 to 454 of src/main.py: fetch additional_metadata from the
(already popped) metadata dict, wrap a bare string reference_numbers into
a one-element list, force extra_fields to a dict; the mutation is visible
in the metadata dict only when the key was present (the default empty
dict returned by get is a fresh object), and calling get on a present
non-dict value raises AttributeError. -/
def stageAdditionalMeta (md : JDict) : Except BuildErr JDict :=
  match dget md "additional_metadata" with
  | none => .ok md
  | some (.obj am) =>
    let am1 :=
      match dget am "reference_numbers" with
      | some (.str s) => dset am "reference_numbers" (.arr [.str s])
      | _ => am
    let am2 :=
      match dget am1 "extra_fields" with
      | some (.obj _) => am1
      | _ => dset am1 "extra_fields" (.obj [])
    .ok (dset md "additional_metadata" (.obj am2))
  | some _ => .error .attr

/-- The declared top-level fields, InvoiceData.model_fields. -/
def invoiceDataFieldNames : List String :=
  ["document_type", "invoice_metadata", "line_items", "totals",
   "payment_slip", "unstructured_content", "extra_fields"]

/-- Lines 419 to 480 of src/main.py applied to the normalized decoded
value: the .keys() cross-check requires a dict at the top; the line-item
loop, the extra_fields pops on metadata, totals, payment slip and bank
details, the additional_metadata fixups, and the model constructions all
follow the source order; the payment-slip truthiness test at line 475
reads the popped (mutated) dict, so it is non-empty exactly when keys
other than extra_fields and bank_details remain. -/
def buildFromDict (kvs : JDict) : Except BuildErr InvoiceData := do
  let items ← stageLineItems kvs
  let mdp ← popOrAttr ((dget kvs "invoice_metadata").getD (.obj [])) "extra_fields"
  let totp ← popOrAttr ((dget kvs "totals").getD (.obj [])) "extra_fields"
  let psp ← popOrAttr ((dget kvs "payment_slip").getD (.obj [])) "extra_fields"
  let bdp ← Except.ok (dpop psp.2 "bank_details" (.obj []))
  let bdq ← popOrAttr bdp.1 "extra_fields"
  let md2 ← stageAdditionalMeta mdp.2
  let meta ← (validateInvoiceMetadata md2 mdp.1).mapError fun _ => BuildErr.validation
  let totals ← (validateTotals totp.2 totp.1).mapError fun _ => BuildErr.validation
  let pslip ← (if bdp.2.isEmpty then Except.ok none
    else do
      let bdm ← (validateBankDetails bdq.2 bdq.1).mapError fun _ => BuildErr.validation
      let psm ← (validatePaymentSlip bdp.2 bdm psp.1).mapError fun _ => BuildErr.validation
      Except.ok (some psm))
  let dt ← (vOptStr ((dget kvs "document_type").getD .null)).mapError
    fun _ => BuildErr.validation
  let uc ← (vOptStrOrDict ((dget kvs "unstructured_content").getD (.str ""))).mapError
    fun _ => BuildErr.validation
  Except.ok
    { document_type := dt
      invoice_metadata := meta
      line_items := items
      totals := totals
      payment_slip := pslip
      unstructured_content := uc
      extra_fields :=
        some (kvs.filter fun kv => !(invoiceDataFieldNames.contains kv.1)) }

/-- The .keys() call at line 419 requires the normalized top-level value
to be a dict; anything else raises AttributeError before any model work. -/
def buildRecord : Json → Except BuildErr InvoiceData
  | .obj kvs => buildFromDict kvs
  | _ => .error .attr

/-- The reconciliation pass on one decoded value tree: null-synonym
normalization followed by the schema mapping. -/
def reconcile (j : Json) : Except BuildErr InvoiceData :=
  buildRecord (normalize_nulls j)

/-- The three surfaced error kinds of parse_gpt_response, one per except
clause. -/
inductive Exc where
  | jsonError : Exc
  | validationError : Exc
  | otherError : Exc
deriving DecidableEq

/-- Map an internal build failure to the except clause that catches it. -/
def buildErrToExc : BuildErr → Exc
  | .validation => .validationError
  | .attr => .otherError

/-- HTTP status attached to each error kind by parse_gpt_response. -/
def httpStatus : Exc → Nat
  | .jsonError => 500
  | .validationError => 422
  | .otherError => 500

/-- HTTP detail string attached to each error kind by parse_gpt_response. -/
def httpDetail : Exc → String
  | .jsonError => "Received invalid JSON from GPT."
  | .validationError => "Validation error in GPT response data."
  | .otherError => "An error occurred while parsing GPT response."

/-- parse_gpt_response from src/main.py: json.loads on the raw text
(line 393, result discarded), preprocess_json then json.loads again
(line 403), then the reconciliation pass on the decoded tree. -/
def parse_gpt_response (t : String) : Except Exc InvoiceData :=
  match jsonParse t with
  | none => .error .jsonError
  | some _ =>
    match jsonParse (preprocess_json t) with
    | none => .error .jsonError
    | some d => (reconcile d).mapError buildErrToExc

/-- Log lines emitted by one reconciliation pass (the logger calls of
parse_gpt_response); they are a function of the input text alone. -/
def parseLogs (t : String) : List String :=
  "Parsing the JSON response from GPT." ::
  (match jsonParse t with
   | none => ["Invalid JSON from GPT."]
   | some _ =>
     match jsonParse (preprocess_json t) with
     | none => ["Invalid JSON from GPT."]
     | some d =>
       match normalize_nulls d with
       | .obj kvs =>
         let unknown := kvs.filter fun kv => !(invoiceDataFieldNames.contains kv.1)
         (if unknown.isEmpty then [] else ["Unknown top-level fields detected."]) ++
         (match reconcile d with
          | .ok _ => ["Successfully mapped GPT response to InvoiceData model."]
          | .error .validation => ["Validation error while mapping GPT response."]
          | .error .attr => ["An unexpected error occurred while parsing GPT response."])
       | _ => ["An unexpected error occurred while parsing GPT response."])

/-- The engine with its only ambient effect made explicit: an invocation
appends its log lines to the logger state and returns the parse result.
The result component depends on the input text alone. -/
def parseStateful (log : List String) (t : String) :
    List String × Except Exc InvoiceData :=
  (log ++ parseLogs t, parse_gpt_response t)

/-- The bindings of a complete, schema-valid vendor map plus one
undeclared key. -/
def exVendorFooKvs : JDict := [("name", .str "Acme Corp"), ("address", .null),
  ("contact", .null), ("tax_id", .null), ("foo", .str "bar")]

/-- A complete, schema-valid vendor map plus one undeclared key. -/
def exVendorFoo : Json := .obj exVendorFooKvs

/-- A complete customer map (also a valid vendor map). -/
def exCustomer : Json := .obj [("name", .str "Bob"), ("address", .null),
  ("contact", .null), ("tax_id", .null)]

/-- The bindings of a complete metadata map around a given vendor_details
value. -/
def exMetaKvs (vd : Json) : JDict := [("invoice_number", .str "INV-001"),
  ("invoice_date", .null), ("due_date", .null), ("currency", .null),
  ("vendor_details", vd), ("customer_details", exCustomer)]

/-- A complete metadata map around a given vendor_details value. -/
def exMeta (vd : Json) : Json := .obj (exMetaKvs vd)

/-- A complete totals map. -/
def exTotals : Json := .obj [("previous_balance", .null), ("current_charges", .null),
  ("discounts", .null), ("adjustments", .null), ("grand_total", .num 10),
  ("amount_in_words", .null), ("currency", .null)]

/-- The bindings of a complete line-item map without extra_details. -/
def exItemKvs : JDict := [("transaction_date", .null), ("description", .str "Widget"),
  ("transaction_type", .null), ("quantity", .num 2), ("unit", .null),
  ("unit_price", .num 5), ("tax_rate", .null), ("tax_amount", .null),
  ("subtotal", .null), ("total", .null), ("status", .null)]

/-- A complete line-item map without extra_details. -/
def exItem : Json := .obj exItemKvs

/-- The bindings of a complete top-level input map with the given vendor,
line items and extra top-level entries. -/
def exTopKvs (vd : Json) (items : List Json) (extra : JDict) : JDict :=
  [("document_type", .str "invoice"), ("invoice_metadata", exMeta vd),
    ("line_items", .arr items), ("totals", exTotals)] ++ extra

/-- A complete top-level input map with the given vendor, line items and
extra top-level entries. -/
def exTop (vd : Json) (items : List Json) (extra : JDict) : Json :=
  .obj (exTopKvs vd items extra)

/-- A second line-item map, distinguishable from exItem. -/
def exItem2 : Json := .obj [("transaction_date", .null), ("description", .str "Bolt"),
  ("transaction_type", .null), ("quantity", .num 7), ("unit", .null),
  ("unit_price", .num 3), ("tax_rate", .null), ("tax_amount", .null),
  ("subtotal", .null), ("total", .null), ("status", .null)]

/-- The full pipeline text for the numeric-cleaning scenario: valid JSON
whose totals.grand_total is the quoted literal with a thousands
separator. -/
def exT4 : String := "\x7b\"document_type\": null, \"invoice_metadata\": \x7b\"invoice_number\": \"INV-001\", \"invoice_date\": null, \"due_date\": null, \"currency\": null, \"vendor_details\": \x7b\"name\": null, \"address\": null, \"contact\": null, \"tax_id\": null\x7d, \"customer_details\": \x7b\"name\": null, \"address\": null, \"contact\": null, \"tax_id\": null\x7d\x7d, \"line_items\": [], \"totals\": \x7b\"previous_balance\": null, \"current_charges\": null, \"discounts\": null, \"adjustments\": null, \"grand_total\": \"1,234.56\", \"amount_in_words\": null, \"currency\": null\x7d\x7d"

/-- An arbitrary record used only as the unreachable default of okD. -/
def someInvoice : InvoiceData :=
  { document_type := none
    invoice_metadata :=
      { invoice_number := none, invoice_date := none, due_date := none,
        currency := none
        vendor_details :=
          { name := none, address := none, contact := none, tax_id := none,
            extra_fields := none }
        customer_details :=
          { name := none, address := none, contact := none, tax_id := none,
            extra_fields := none }
        additional_metadata := none, extra_fields := none }
    line_items := []
    totals :=
      { previous_balance := none, current_charges := none,
        partial_totals := none, taxes := none, discounts := none,
        adjustments := none, grand_total := none, amount_in_words := none,
        currency := none, extra_fields := none }
    payment_slip := none
    unstructured_content := none
    extra_fields := none }

/-- The value under an ok, with a default for the error case. -/
def okD {ε α : Type} (x : Except ε α) (d : α) : α :=
  match x with
  | .ok a => a
  | .error _ => d

theorem bindOkInv {ε α β : Type} {x : Except ε α} {f : α → Except ε β} {r : β}
    (h : x >>= f = .ok r) : ∃ a, x = .ok a ∧ f a = .ok r := by
  cases x with
  | ok a => exact ⟨a, rfl, h⟩
  | error e => simp [Bind.bind, Except.bind] at h

theorem mapErrorOkInv {ε ε2 α : Type} {x : Except ε α} {f : ε → ε2} {r : α}
    (h : x.mapError f = .ok r) : x = .ok r := by
  cases x with
  | ok a => simpa [Except.mapError] using h
  | error e => simp [Except.mapError] at h

theorem buildFromDict_ok_parts {kvs : JDict} {r : InvoiceData}
    (h : buildFromDict kvs = .ok r) :
    ∃ items mdp totp psp bdp bdq md2 meta totals pslip dt uc,
      stageLineItems kvs = .ok items ∧
      popOrAttr ((dget kvs "invoice_metadata").getD (.obj [])) "extra_fields" = .ok mdp ∧
      popOrAttr ((dget kvs "totals").getD (.obj [])) "extra_fields" = .ok totp ∧
      popOrAttr ((dget kvs "payment_slip").getD (.obj [])) "extra_fields" = .ok psp ∧
      bdp = dpop psp.2 "bank_details" (.obj []) ∧
      popOrAttr bdp.1 "extra_fields" = .ok bdq ∧
      stageAdditionalMeta mdp.2 = .ok md2 ∧
      validateInvoiceMetadata md2 mdp.1 = .ok meta ∧
      validateTotals totp.2 totp.1 = .ok totals ∧
      (bdp.2.isEmpty = true → pslip = none) ∧
      vOptStr ((dget kvs "document_type").getD .null) = .ok dt ∧
      vOptStrOrDict ((dget kvs "unstructured_content").getD (.str "")) = .ok uc ∧
      r = { document_type := dt, invoice_metadata := meta, line_items := items,
            totals := totals, payment_slip := pslip, unstructured_content := uc,
            extra_fields :=
              some (kvs.filter fun kv => !(invoiceDataFieldNames.contains kv.1)) } := by
  unfold buildFromDict at h
  obtain ⟨items, h1, h⟩ := bindOkInv h
  obtain ⟨mdp, h2, h⟩ := bindOkInv h
  obtain ⟨totp, h3, h⟩ := bindOkInv h
  obtain ⟨psp, h4, h⟩ := bindOkInv h
  obtain ⟨bdp, h5, h⟩ := bindOkInv h
  obtain ⟨bdq, h6, h⟩ := bindOkInv h
  obtain ⟨md2, h7, h⟩ := bindOkInv h
  obtain ⟨meta, h8, h⟩ := bindOkInv h
  obtain ⟨totals, h9, h⟩ := bindOkInv h
  obtain ⟨pslip, h10, h⟩ := bindOkInv h
  obtain ⟨dt, h11, h⟩ := bindOkInv h
  obtain ⟨uc, h12, h⟩ := bindOkInv h
  injection h5 with h5
  injection h with h
  refine ⟨items, mdp, totp, psp, bdp, bdq, md2, meta, totals, pslip, dt, uc,
    h1, h2, h3, h4, h5.symm, h6, h7, mapErrorOkInv h8, mapErrorOkInv h9,
    ?_, mapErrorOkInv h11, mapErrorOkInv h12, h.symm⟩
  intro he
  rw [he] at h10
  simp at h10
  exact h10.symm

@[simp] theorem normalize_nulls_null : normalize_nulls .null = .null := by
  rw [normalize_nulls]

@[simp] theorem normalize_nulls_bool (b : Bool) :
    normalize_nulls (.bool b) = .bool b := by
  rw [normalize_nulls]

@[simp] theorem normalize_nulls_num (q : ℚ) :
    normalize_nulls (.num q) = .num q := by
  rw [normalize_nulls]

@[simp] theorem normalize_nulls_str (s : String) :
    normalize_nulls (.str s) =
      if s = "null" ∨ s = "NA" then .null else .str s := by
  rw [normalize_nulls]

attribute [simp] normalize_nulls_arr normalize_nulls_obj

theorem dget_dset_self (kvs : JDict) (k : String) (v : Json) :
    dget (dset kvs k v) k = some v := by
  induction kvs with
  | nil => simp [dset, dget]
  | cons kv rest ih =>
    obtain ⟨k1, v1⟩ := kv
    by_cases hk : k1 = k
    · simp [dset, hk, dget]
    · simp [dset, hk, dget, ih]

theorem dget_dset_ne (kvs : JDict) {k k2 : String} (v : Json) (h : k ≠ k2) :
    dget (dset kvs k v) k2 = dget kvs k2 := by
  induction kvs with
  | nil => simp [dset, dget, h]
  | cons kv rest ih =>
    obtain ⟨k1, v1⟩ := kv
    by_cases hk : k1 = k
    · subst hk
      simp [dset, dget, h, ih]
    · simp [dset, hk, dget, ih]

theorem dget_dremove_ne (kvs : JDict) {k k2 : String} (h : k ≠ k2) :
    dget (dremove kvs k) k2 = dget kvs k2 := by
  induction kvs with
  | nil => simp [dremove, dget]
  | cons kv rest ih =>
    obtain ⟨k1, v1⟩ := kv
    by_cases hk : k1 = k
    · subst hk
      simp [dremove, dget, h, ih]
    · simp [dremove, hk, dget, ih]

theorem dget_filter {p : String × Json → Bool} (kvs : JDict) (k : String)
    (hall : ∀ v : Json, p (k, v) = true) :
    dget (kvs.filter p) k = dget kvs k := by
  induction kvs with
  | nil => simp [dget]
  | cons kv rest ih =>
    obtain ⟨k1, v1⟩ := kv
    by_cases hk : k1 = k
    · subst hk
      simp [List.filter, hall v1, dget, ih]
    · by_cases hp : p (k1, v1) = true
      · simp [List.filter, hp, dget, hk, ih]
      · simp at hp
        simp [List.filter, hp, dget, hk, ih]

theorem mapExcept_ok_length {ε α β : Type} {f : α → Except ε β} :
    ∀ {xs : List α} {ys : List β}, mapExcept f xs = .ok ys → ys.length = xs.length
  | [], ys, h => by
    simp only [mapExcept] at h
    injection h with h
    rw [← h]
    rfl
  | x :: xs, ys, h => by
    simp only [mapExcept] at h
    obtain ⟨y, hy, h⟩ := bindOkInv h
    obtain ⟨ys2, hys, h⟩ := bindOkInv h
    injection h with h
    rw [← h]
    simp [mapExcept_ok_length hys]

theorem mapExcept_ok_get {ε α β : Type} {f : α → Except ε β} :
    ∀ {xs : List α} {ys : List β}, mapExcept f xs = .ok ys →
      ∀ i, (xs.get? i).map f = (ys.get? i).map Except.ok
  | [], ys, h, i => by
    simp only [mapExcept] at h
    injection h with h
    rw [← h]
    simp
  | x :: xs, ys, h, i => by
    simp only [mapExcept] at h
    obtain ⟨y, hy, h⟩ := bindOkInv h
    obtain ⟨ys2, hys, h⟩ := bindOkInv h
    injection h with h
    rw [← h]
    cases i with
    | zero => simpa using hy
    | succ i2 => simpa using mapExcept_ok_get hys i2

theorem validateVendorDetails_ef {kvs : JDict} {v : VendorDetails}
    (h : validateVendorDetails kvs = .ok v) :
    optF kvs "extra_fields" (some []) vOptDict = .ok v.extra_fields := by
  unfold validateVendorDetails at h
  obtain ⟨a1, h1, h⟩ := bindOkInv h
  obtain ⟨a2, h2, h⟩ := bindOkInv h
  obtain ⟨a3, h3, h⟩ := bindOkInv h
  obtain ⟨a4, h4, h⟩ := bindOkInv h
  obtain ⟨a5, h5, h⟩ := bindOkInv h
  injection h with h
  rw [← h]
  exact h5

theorem validateLineItem_fields {kvs : JDict} {ef : Json} {li : LineItem}
    (h : validateLineItem kvs ef = .ok li) :
    reqF kvs "quantity" vOptFloat = .ok li.quantity ∧
    optF kvs "extra_details" (some (.inl "")) vOptStrOrDict = .ok li.extra_details := by
  unfold validateLineItem at h
  obtain ⟨a1, h1, h⟩ := bindOkInv h
  obtain ⟨a2, h2, h⟩ := bindOkInv h
  obtain ⟨a3, h3, h⟩ := bindOkInv h
  obtain ⟨a4, h4, h⟩ := bindOkInv h
  obtain ⟨a5, h5, h⟩ := bindOkInv h
  obtain ⟨a6, h6, h⟩ := bindOkInv h
  obtain ⟨a7, h7, h⟩ := bindOkInv h
  obtain ⟨a8, h8, h⟩ := bindOkInv h
  obtain ⟨a9, h9, h⟩ := bindOkInv h
  obtain ⟨a10, h10, h⟩ := bindOkInv h
  obtain ⟨a11, h11, h⟩ := bindOkInv h
  obtain ⟨a12, h12, h⟩ := bindOkInv h
  obtain ⟨a13, h13, h⟩ := bindOkInv h
  obtain ⟨a14, h14, h⟩ := bindOkInv h
  injection h with h
  rw [← h]
  exact ⟨h4, h13⟩

theorem dget_dpop_ne (kvs : JDict) {key k : String} (d : Json) (h : key ≠ k) :
    dget (dpop kvs key d).2 k = dget kvs k := by
  unfold dpop
  cases hg : dget kvs key
  · rfl
  · exact dget_dremove_ne kvs h

/-- Boolean prefix test on character lists. -/
def isPrefB : List Char → List Char → Bool
  | [], _ => true
  | _ :: _, [] => false
  | a :: as, b :: bs => a = b && isPrefB as bs

/-- Boolean infix (substring) test on character lists. -/
def hasInfixB (pat : List Char) : List Char → Bool
  | [] => isPrefB pat []
  | c :: rest => isPrefB pat (c :: rest) || hasInfixB pat rest

/-- C2: Root overflow routing — for every reconciler input map, the
overflow map of the root record equals exactly the set of top-level keys that are
not declared fields of the Invoice Record schema, each with the value it
carries in that map: every undeclared top-level key appears there with
its value, and such keys are the only entries the top-level cross-check
places there. -/
theorem c2_root_overflow_routing :
    ∀ (kvs : JDict) (r : InvoiceData),
      buildFromDict kvs = .ok r →
      r.extra_fields =
        some (kvs.filter fun kv => !(invoiceDataFieldNames.contains kv.1)) := by
  intro kvs r h
  obtain ⟨items, mdp, totp, psp, bdp, bdq, md2, meta, totals, pslip, dt, uc,
    h1, h2, h3, h4, h5, h6, h7, h8, h9, h10, h11, h12, hr⟩ :=
    buildFromDict_ok_parts h
  rw [hr]

/-- Witness for C2 at a concrete input carrying a stray page_count key. -/
theorem c2_root_overflow_routing_witness :
    (okD (buildFromDict (exTopKvs exVendorFoo [] [("page_count", .num 3)]))
        someInvoice).extra_fields = some [("page_count", Json.num 3)] := by
  have h : buildFromDict (exTopKvs exVendorFoo [] [("page_count", .num 3)]) =
      .ok (okD (buildFromDict (exTopKvs exVendorFoo [] [("page_count", .num 3)]))
        someInvoice) := rfl
  rw [c2_root_overflow_routing _ _ h]
  rfl

/-- C8: Order preservation of line items — whenever the reconciler input
map binds line_items to a sequence and reconciliation succeeds, the
output record has one line item per input element and the i-th output
line item is exactly the one built from the i-th input element. -/
theorem c8_line_item_order :
    ∀ (kvs : JDict) (r : InvoiceData) (xs : List Json),
      buildFromDict kvs = .ok r →
      dget kvs "line_items" = some (.arr xs) →
      r.line_items.length = xs.length ∧
      ∀ i, (xs.get? i).map processLineItem =
        (r.line_items.get? i).map Except.ok := by
  intro kvs r xs h hl
  obtain ⟨items, mdp, totp, psp, bdp, bdq, md2, meta, totals, pslip, dt, uc,
    h1, h2, h3, h4, h5, h6, h7, h8, h9, h10, h11, h12, hr⟩ :=
    buildFromDict_ok_parts h
  have hitems : mapExcept processLineItem xs = .ok items := by
    unfold stageLineItems at h1
    rw [hl] at h1
    exact h1
  have hli : r.line_items = items := by rw [hr]
  rw [hli]
  exact ⟨mapExcept_ok_length hitems, mapExcept_ok_get hitems⟩

/-- Witness for C8 at a concrete two-element line-item sequence. -/
theorem c8_line_item_order_witness :
    (okD (buildFromDict (exTopKvs exVendorFoo [exItem, exItem2] []))
        someInvoice).line_items.length = 2 ∧
    ([exItem, exItem2].get? 1).map processLineItem =
      ((okD (buildFromDict (exTopKvs exVendorFoo [exItem, exItem2] []))
        someInvoice).line_items.get? 1).map Except.ok := by
  have h : buildFromDict (exTopKvs exVendorFoo [exItem, exItem2] []) =
      .ok (okD (buildFromDict (exTopKvs exVendorFoo [exItem, exItem2] []))
        someInvoice) := rfl
  have h2 := c8_line_item_order _ _ [exItem, exItem2] h rfl
  exact ⟨h2.1.trans rfl, h2.2 1⟩

/-- C9: Determinism and purity of the reconciliation pass — with the
logger state made explicit, the result of an invocation is the pure
function parse_gpt_response of the input text alone: it does not depend
on the incoming state, and a second invocation on the same text (after
the first one has updated the state) returns the identical result. -/
theorem c9_determinism_purity :
    ∀ (s1 s2 : List String) (t : String),
      (parseStateful s1 t).2 = parse_gpt_response t ∧
      (parseStateful s1 t).2 = (parseStateful s2 t).2 ∧
      (parseStateful (parseStateful s1 t).1 t).2 = (parseStateful s1 t).2 :=
  fun _ _ _ => ⟨rfl, rfl, rfl⟩

/-- C5 (amended): the malformed-JSON error is raised if and only if the
raw text or the comma-cleaned text fails to decode — the code decodes the
raw text first (line 393) and the cleaned text second (line 403), so a
text that is invalid raw but valid after cleaning still raises the
malformed error. -/
theorem c5_amended_decode_failure :
    ∀ t : String,
      parse_gpt_response t = .error .jsonError ↔
        (jsonParse t = none ∨ jsonParse (preprocess_json t) = none) := by
  intro t
  unfold parse_gpt_response
  cases h1 : jsonParse t with
  | none => simp
  | some d0 =>
    cases h2 : jsonParse (preprocess_json t) with
    | none => simp
    | some d =>
      constructor
      · intro h
        exfalso
        have h3 : (reconcile d).mapError buildErrToExc = .error .jsonError := h
        cases hr : reconcile d with
        | ok r =>
          rw [hr] at h3
          simp [Except.mapError] at h3
        | error e =>
          rw [hr] at h3
          cases e <;> simp [Except.mapError, buildErrToExc] at h3
      · intro h
        rcases h with h | h <;> simp at h

/-- C5 counterexample: the text built of a digit, a comma and a digit is
valid JSON after comma cleaning, yet parse_gpt_response raises the
malformed-JSON error on it, because the raw text is decoded first. -/
theorem c5_counterexample :
    parse_gpt_response "1,2" = .error .jsonError ∧
    (jsonParse (preprocess_json "1,2")).isSome = true ∧
    preprocess_json "1,2" = "12" := by
  refine ⟨rfl, rfl, ?_⟩
  decide

/-- C10 (amended): a payment_slip entry that is missing or an empty map
yields an absent payment_slip in the returned record; but a payment_slip
entry that is null does not — the code calls pop on it, so reconciliation
fails with the generic error and no record is returned. -/
theorem c10_amended_payment_slip :
    (∀ (kvs : JDict) (r : InvoiceData),
      buildFromDict kvs = .ok r →
      (dget kvs "payment_slip" = none ∨ dget kvs "payment_slip" = some (.obj [])) →
      r.payment_slip = none) ∧
    (∀ kvs : JDict, dget kvs "payment_slip" = some .null →
      ∀ r, buildFromDict kvs ≠ .ok r) := by
  constructor
  · intro kvs r h hps
    obtain ⟨items, mdp, totp, psp, bdp, bdq, md2, meta, totals, pslip, dt, uc,
      h1, h2, h3, h4, h5, h6, h7, h8, h9, h10, h11, h12, hr⟩ :=
      buildFromDict_ok_parts h
    have hpsp : psp = (Json.obj [], ([] : JDict)) := by
      rcases hps with hps | hps <;>
        · rw [hps] at h4
          have h4b : Except.ok ((Json.obj []), ([] : JDict)) = Except.ok psp := h4
          injection h4b with h4b
          exact h4b.symm
    have hbdp : bdp.2 = [] := by
      rw [h5, hpsp]
      rfl
    have hnone := h10 (by rw [hbdp]; rfl)
    rw [hr]
    exact hnone
  · intro kvs hps r h
    obtain ⟨items, mdp, totp, psp, bdp, bdq, md2, meta, totals, pslip, dt, uc,
      h1, h2, h3, h4, h5, h6, h7, h8, h9, h10, h11, h12, hr⟩ :=
      buildFromDict_ok_parts h
    rw [hps] at h4
    simp [popOrAttr, Option.getD] at h4

/-- Witness for C10 at a concrete input with no payment_slip key. -/
theorem c10_amended_payment_slip_witness :
    (okD (buildFromDict (exTopKvs exCustomer [] [])) someInvoice).payment_slip =
      none := by
  have h : buildFromDict (exTopKvs exCustomer [] []) =
      .ok (okD (buildFromDict (exTopKvs exCustomer [] [])) someInvoice) := rfl
  exact c10_amended_payment_slip.1 _ _ h (Or.inl rfl)

/-- C10 counterexample: on an otherwise complete input whose payment_slip
is null (a falsy value), reconciliation does not return a record with an
absent payment_slip — it fails with the generic attribute error, because
the code pops extra_fields from None. -/
theorem c10_counterexample :
    reconcile (exTop exVendorFoo [] [("payment_slip", Json.null)]) =
      .error .attr := by
  have hn : normalize_nulls (exTop exVendorFoo [] [("payment_slip", Json.null)]) =
      exTop exVendorFoo [] [("payment_slip", Json.null)] := by
    simp [exTop, exTopKvs, exMeta, exMetaKvs, exCustomer, exTotals,
      exVendorFoo, exVendorFooKvs]
  unfold reconcile
  rw [hn]
  rfl

/-- The declared field names of the Vendor record. -/
def vendorFieldNames : List String :=
  ["name", "address", "contact", "tax_id", "extra_fields"]

/-- C1 (amended): nested reconciliation does not route undeclared keys:
validating a vendor map ignores every key outside the declared field
names (dropping the input keys that are neither declared nor already
grouped under extra_fields), and when the input has no explicit
extra_fields key the resulting overflow map is empty — an undeclared
key such as foo is silently discarded, not placed in the overflow map.
Declared fields are still bound unrenamed; only the top-level cross-check
routes unknown keys into an overflow map. -/
theorem c1_amended_vendor_unknown_keys :
    (∀ kvs : JDict,
      validateVendorDetails (kvs.filter fun kv => vendorFieldNames.contains kv.1) =
        validateVendorDetails kvs) ∧
    (∀ (kvs : JDict) (v : VendorDetails),
      validateVendorDetails kvs = .ok v → dget kvs "extra_fields" = none →
      v.extra_fields = some []) := by
  constructor
  · intro kvs
    unfold validateVendorDetails reqF optF
    rw [dget_filter kvs "name" (fun v => rfl),
      dget_filter kvs "address" (fun v => rfl),
      dget_filter kvs "contact" (fun v => rfl),
      dget_filter kvs "tax_id" (fun v => rfl),
      dget_filter kvs "extra_fields" (fun v => rfl)]
  · intro kvs v h hef
    have h5 := validateVendorDetails_ef h
    unfold optF at h5
    rw [hef] at h5
    injection h5 with h5
    exact h5.symm

/-- Witness for C1 at the concrete vendor map carrying the undeclared
key foo. -/
theorem c1_amended_vendor_unknown_keys_witness :
    (okD (validateVendorDetails exVendorFooKvs)
        someInvoice.invoice_metadata.vendor_details).extra_fields = some [] := by
  have h : validateVendorDetails exVendorFooKvs =
      .ok (okD (validateVendorDetails exVendorFooKvs)
        someInvoice.invoice_metadata.vendor_details) := rfl
  exact c1_amended_vendor_unknown_keys.2 _ _ h rfl

/-- C1 counterexample: a full input whose vendor_details map carries the
undeclared binding of foo to bar reconciles to a record whose Vendor
overflow map is empty — the key foo is dropped rather than preserved, so
losslessness fails at the nested level. -/
theorem c1_counterexample :
    (reconcile (exTop exVendorFoo [exItem] [])).map
        (fun r => r.invoice_metadata.vendor_details.extra_fields) =
      .ok (some []) ∧
    dget exVendorFooKvs "foo" = some (.str "bar") := by
  constructor
  · have hn : normalize_nulls (exTop exVendorFoo [exItem] []) =
        exTop exVendorFoo [exItem] [] := by
      simp [exTop, exTopKvs, exMeta, exMetaKvs, exCustomer, exTotals,
        exVendorFoo, exVendorFooKvs, exItem, exItemKvs]
    unfold reconcile
    rw [hn]
    rfl
  · rfl

/-- C6 (amended): for a line item that validates, an optional scalar
field whose input value is null is represented as absent (shown for
quantity), but the extra-detail field is the exception the claim misses:
when it is missing or null the code sets it to the empty string, so the
output carries the empty string even though the input never supplied
one. -/
theorem c6_amended_absent_handling :
    ∀ (item : JDict) (li : LineItem),
      processLineItem (.obj item) = .ok li →
      ((dget item "extra_details" = none ∨ dget item "extra_details" = some .null) →
        li.extra_details = some (.inl "")) ∧
      (dget item "quantity" = some .null → li.quantity = none) := by
  intro item li h
  unfold processLineItem at h
  have hv := mapErrorOkInv h
  have hf := validateLineItem_fields hv
  constructor
  · intro hcase
    have hed : dget (dpop item "extra_fields" (.obj [])).2 "extra_details" =
        dget item "extra_details" :=
      dget_dpop_ne item (.obj []) (by decide)
    have hfix : dget (fixExtraDetails (dpop item "extra_fields" (.obj [])).2)
        "extra_details" = some (.str "") := by
      unfold fixExtraDetails
      rcases hcase with hc | hc <;>
        · rw [hed, hc]
          exact dget_dset_self _ _ _
    have hopt : optF (fixExtraDetails (dpop item "extra_fields" (.obj [])).2)
        "extra_details" (some (.inl "")) vOptStrOrDict = .ok (some (.inl "")) := by
      unfold optF
      rw [hfix]
      rfl
    have hcomb := hopt.symm.trans hf.2
    injection hcomb with hcomb
    exact hcomb.symm
  · intro hqn
    have hq : dget (fixExtraDetails (dpop item "extra_fields" (.obj [])).2)
        "quantity" = dget (dpop item "extra_fields" (.obj [])).2 "quantity" := by
      unfold fixExtraDetails
      cases hsc : dget (dpop item "extra_fields" (.obj [])).2 "extra_details" with
      | none => exact dget_dset_ne _ _ (by decide)
      | some v =>
        cases v <;> first
          | rfl
          | exact dget_dset_ne _ _ (by decide)
    have hreq : reqF (fixExtraDetails (dpop item "extra_fields" (.obj [])).2)
        "quantity" vOptFloat = .ok none := by
      unfold reqF
      rw [hq, dget_dpop_ne item (.obj []) (by decide), hqn]
      rfl
    have hcomb := hreq.symm.trans hf.1
    injection hcomb with hcomb
    exact hcomb.symm

/-- A line-item map whose quantity is null and whose extra_details key
is absent. -/
def exItemNullQKvs : JDict := [("transaction_date", .null),
  ("description", .str "Widget"), ("transaction_type", .null),
  ("quantity", .null), ("unit", .null), ("unit_price", .null),
  ("tax_rate", .null), ("tax_amount", .null), ("subtotal", .null),
  ("total", .null), ("status", .null)]

/-- An arbitrary line item used only as the unreachable default of okD. -/
def someLineItem : LineItem :=
  { transaction_date := none, description := none, transaction_type := none,
    quantity := none, unit := none, unit_price := none, tax_rate := none,
    tax_amount := none, subtotal := none, total := none, status := none,
    sub_items := none, extra_details := none, extra_fields := none }

/-- Witness for C6 at a concrete line item whose quantity is null and
whose extra_details key is absent. -/
theorem c6_amended_absent_handling_witness :
    (okD (processLineItem (.obj exItemNullQKvs)) someLineItem).extra_details =
      some (.inl "") ∧
    (okD (processLineItem (.obj exItemNullQKvs)) someLineItem).quantity = none := by
  have hok : processLineItem (.obj exItemNullQKvs) =
      .ok (okD (processLineItem (.obj exItemNullQKvs)) someLineItem) := rfl
  have h := c6_amended_absent_handling _ _ hok
  exact ⟨h.1 (Or.inl rfl), h.2 rfl⟩

/-- C6 counterexample: a full input whose single line item lacks the
extra_details key reconciles to a record whose line item carries the
empty string there — not the absent value the claim requires. -/
theorem c6_counterexample :
    (reconcile (exTop exCustomer [exItem] [])).map
        (fun r => r.line_items.map fun li => li.extra_details) =
      .ok [some (.inl "")] ∧
    dget exItemKvs "extra_details" = none := by
  constructor
  · have hn : normalize_nulls (exTop exCustomer [exItem] []) =
        exTop exCustomer [exItem] [] := by
      simp [exTop, exTopKvs, exMeta, exMetaKvs, exCustomer, exTotals,
        exItem, exItemKvs]
    unfold reconcile
    rw [hn]
    rfl
  · rfl

/-- C7 (amended): an input whose vendor_details is a bare scalar makes
metadata validation fail, so no record is returned; but the surfaced
error is the generic pydantic ValidationError mapped to HTTP 422 with the
fixed message, which does not name the offending dotted path. -/
theorem c7_amended_schema_mismatch :
    (∀ (kvs : JDict) (ef : Json) (s : String),
      dget kvs "vendor_details" = some (.str s) →
      ∀ m, validateInvoiceMetadata kvs ef ≠ .ok m) ∧
    httpDetail .validationError = "Validation error in GPT response data." ∧
    httpStatus .validationError = 422 := by
  refine ⟨?_, rfl, rfl⟩
  intro kvs ef s hv m h
  unfold validateInvoiceMetadata at h
  obtain ⟨a1, h1, h⟩ := bindOkInv h
  obtain ⟨a2, h2, h⟩ := bindOkInv h
  obtain ⟨a3, h3, h⟩ := bindOkInv h
  obtain ⟨a4, h4, h⟩ := bindOkInv h
  obtain ⟨a5, h5, h⟩ := bindOkInv h
  unfold reqF at h5
  rw [hv] at h5
  simp at h5

/-- Witness for C7 at the concrete metadata map whose vendor_details is
the scalar string Acme. -/
theorem c7_amended_schema_mismatch_witness :
    validateInvoiceMetadata (exMetaKvs (.str "Acme")) (.obj []) ≠
      .ok someInvoice.invoice_metadata :=
  c7_amended_schema_mismatch.1 (exMetaKvs (.str "Acme")) (.obj []) "Acme" rfl
    someInvoice.invoice_metadata

/-- C7 counterexample: on the input whose invoice_metadata.vendor_details
is the scalar Acme, reconciliation fails with the generic validation
error; the payload surfaced for that error kind is the fixed message,
and the dotted path invoice_metadata.vendor_details does not occur in
it — contradicting the claim that the error payload names the offending
path. -/
theorem c7_counterexample :
    reconcile (exTop (.str "Acme") [] []) = .error .validation ∧
    hasInfixB "invoice_metadata.vendor_details".data
      (httpDetail (buildErrToExc .validation)).data = false := by
  constructor
  · have hn : normalize_nulls (exTop (.str "Acme") [] []) =
        exTop (.str "Acme") [] [] := by
      simp [exTop, exTopKvs, exMeta, exMetaKvs, exCustomer, exTotals]
    unfold reconcile
    rw [hn]
    rfl
  · rfl

/-- The tree exT4 decodes to, parameterized by the grand_total literal
(before cleaning it carries the separator comma, after cleaning it does
not). -/
def exD4sub (gt : String) : Json := .obj [
  ("document_type", .null),
  ("invoice_metadata", .obj [("invoice_number", .str "INV-001"),
    ("invoice_date", .null), ("due_date", .null), ("currency", .null),
    ("vendor_details", .obj [("name", .null), ("address", .null),
      ("contact", .null), ("tax_id", .null)]),
    ("customer_details", .obj [("name", .null), ("address", .null),
      ("contact", .null), ("tax_id", .null)])]),
  ("line_items", .arr []),
  ("totals", .obj [("previous_balance", .null), ("current_charges", .null),
    ("discounts", .null), ("adjustments", .null), ("grand_total", .str gt),
    ("amount_in_words", .null), ("currency", .null)])]

/-- C4: Numeric literal cleaning removes exactly the digit-adjacent
commas — the cleaner equals, character by character, the rule deleting a
comma if and only if its immediate original neighbors are both digits
(first two conjuncts: the cleaner agrees with the neighbor-annotated
filter, whose annotations are exactly the positional neighbors); a
digit-comma-digit pattern inside a quoted string is also stripped, and
the quoted literal of one-comma-two-three-four-point-five-six in the
numeric grand_total position parses through the full pipeline to the
numeric value 1234.56. -/
theorem c4_numeric_comma_cleaning :
    (∀ s : String, (preprocess_json s).data =
      (withNeighbors s.data).filterMap commaRule) ∧
    (∀ (cs : List Char) (i : Nat),
      (withNeighbors cs).get? i = (cs.get? i).map
        (fun c => ((if i = 0 then none else cs.get? (i - 1)), c,
          cs.get? (i + 1)))) ∧
    preprocess_json "\"12,34 Main St\"" = "\"1234 Main St\"" ∧
    (parse_gpt_response exT4).map (fun r => r.totals.grand_total) =
      .ok (strToRat "1234.56") ∧
    strToRat "1234.56" = some ((123456 : ℚ) / 100) := by
  refine ⟨?_, ?_, by decide, ?_, ?_⟩
  · intro s
    exact cleanAux_eq_filterMap s.data none
  · intro cs i
    exact wnAux_get? cs none i
  · have h1 : jsonParse exT4 = some (exD4sub "1,234.56") := rfl
    have h2 : jsonParse (preprocess_json exT4) = some (exD4sub "1234.56") := rfl
    have hn : normalize_nulls (exD4sub "1234.56") = exD4sub "1234.56" := by
      simp [exD4sub]
    have key : parse_gpt_response exT4 =
        (reconcile (exD4sub "1234.56")).mapError buildErrToExc := by
      unfold parse_gpt_response
      rw [h1, h2]
    rw [key]
    unfold reconcile
    rw [hn]
    rfl
  · show some (strToRat.ratOfParts false 1234 56 2 0) = _
    unfold strToRat.ratOfParts
    norm_num
